import Mathlib

/-!
Shallow embedding of `VisualizationMarkers` from
`source/extensions/omni.isaac.orbit/omni/isaac/orbit/markers/visualization_markers.py`.

The module validates batches of per-instance arrays and pushes them into a
`UsdGeom.PointInstancer`.  The host scene-graph engine is modelled as plain
record fields (the values last written to each instancer attribute); the
numeric payload of the float arrays is never inspected by the module beyond
reordering, so scalars are carried as opaque `Int` values.  A numpy array is
modelled by its shape tuple together with its data: the validation code reads
only the shape, the write code only the data.
-/

namespace OrbitMarkers

/-- A numpy array as seen by `visualize` for `translations`, `orientations`
and `scales`: the shape tuple (as numpy reports it, so it may have any rank)
and the data grouped by leading-axis rows. -/
structure NpArray where
  shape : List Nat
  rows : List (List Int)
deriving DecidableEq

/-- A numpy array as seen by `visualize` for `marker_indices` (integer data,
intended rank 1).  A Python list argument is converted by `np.array`, which
yields shape `[len]`. -/
structure IdxArray where
  shape : List Nat
  data : List Int
deriving DecidableEq

/-- A marker prototype configuration: either a plain prim marker
(`VisualizationMarkersCfg.MarkerCfg`, carrying `prim_type`) or a file marker
(`VisualizationMarkersCfg.FileMarkerCfg`, carrying `prim_type` and
`usd_path`).  Fields that flow only into host-engine prim creation
(`visible`, `scale`, `color`, extra attribute maps) play no part in the
validated behaviour and are omitted. -/
inductive MarkerCfg where
  | prim (primType : String)
  | file (primType : String) (usdPath : String)
deriving DecidableEq

/-- The state of the host `UsdGeom.PointInstancer` prim: the value last
written to each attribute, the registered prototype targets, and the
visibility flag. -/
structure Instancer where
  positions : List (List Int)
  orientations : List (List Int)
  scales : List (List Int)
  protoIndices : List Int
  prototypes : List String
  visible : Bool
deriving DecidableEq

/-- The runtime state of a `VisualizationMarkers` object: the owned
instancer prim, the tracked `self._count`, and the stored marker config
(an ordered association list mirroring the ordered `cfg.markers` dict). -/
structure VisualizationMarkers where
  instancer : Instancer
  count : Nat
  markers : List (String × MarkerCfg)
deriving DecidableEq

/-- The errors `visualize` can raise.  `shapeError` is the
`ValueError(f"Expected x to have shape (...). Received: ...")` carrying the
argument name, the expected-shape text and the received shape;
`indexError` is the Python `IndexError: tuple index out of range` raised by
evaluating `arr.shape[1]` on an array of rank below 2; `emptyBatch` is the
`ValueError("Number of markers cannot be zero! ...")`. -/
inductive VisError where
  | shapeError (arg expected : String) (received : List Nat)
  | indexError
  | emptyBatch
deriving DecidableEq

/-- The errors construction can raise.  `configurationError` covers the
`ValueError`s for an empty config and for the prim-type/file pairing rules;
`assetNotFound` is the `FileNotFoundError` for a missing `usd_path`.  The
Python messages interpolate the received values; here the fixed message text
is carried. -/
inductive CfgError where
  | configurationError (msg : String)
  | assetNotFound (path : String)
deriving DecidableEq

/-- Modelled from the spec: `convert_quat(q, to="xyzw")` from
`omni.isaac.orbit.utils.math` is imported by the module but its source is
not included; per the spec it is a pure component reordering of each
quaternion row from `(w, x, y, z)` to `(x, y, z, w)` (a roll of the last
axis), not a rotation. -/
def convertQuatToXYZW (rows : List (List Int)) : List (List Int) :=
  rows.map fun r => r.drop 1 ++ r.take 1

/-- The shape check `arr.shape[1] != w or len(arr.shape) != 2` as Python
evaluates it: `arr.shape[1]` is evaluated first and raises `IndexError`
when the rank is below 2; otherwise a mismatch raises the `ValueError`
naming the argument. -/
def checkShape2 (arg expected : String) (width : Nat) (shape : List Nat) :
    Option VisError :=
  match shape[1]? with
  | none => some VisError.indexError
  | some d =>
      if d ≠ width ∨ shape.length ≠ 2 then
        some (VisError.shapeError arg expected shape)
      else
        none

/-- The `translations` block of `visualize`: validate shape `(M, 3)`, write
the array to the positions attribute, set `num_markers` to `shape[0]`. -/
def stepTranslations (t : Option NpArray) (s : VisualizationMarkers)
    (n : Nat) : Except VisError (VisualizationMarkers × Nat) :=
  match t with
  | none => Except.ok (s, n)
  | some a =>
      match checkShape2 "translations" "(M, 3)" 3 a.shape with
      | some e => Except.error e
      | none =>
          Except.ok
            ({ s with instancer := { s.instancer with positions := a.rows } },
              a.shape.headD 0)

/-- The `orientations` block of `visualize`: validate shape `(M, 4)`,
convert each row from `(w, x, y, z)` to `(x, y, z, w)`, write the converted
array to the orientations attribute, set `num_markers` to `shape[0]`. -/
def stepOrientations (o : Option NpArray) (s : VisualizationMarkers)
    (n : Nat) : Except VisError (VisualizationMarkers × Nat) :=
  match o with
  | none => Except.ok (s, n)
  | some a =>
      match checkShape2 "orientations" "(M, 4)" 4 a.shape with
      | some e => Except.error e
      | none =>
          Except.ok
            ({ s with
                instancer :=
                  { s.instancer with
                      orientations := convertQuatToXYZW a.rows } },
              a.shape.headD 0)

/-- The `scales` block of `visualize`: validate shape `(M, 3)`, write the
array to the scales attribute, set `num_markers` to `shape[0]`. -/
def stepScales (sc : Option NpArray) (s : VisualizationMarkers)
    (n : Nat) : Except VisError (VisualizationMarkers × Nat) :=
  match sc with
  | none => Except.ok (s, n)
  | some a =>
      match checkShape2 "scales" "(M, 3)" 3 a.shape with
      | some e => Except.error e
      | none =>
          Except.ok
            ({ s with instancer := { s.instancer with scales := a.rows } },
              a.shape.headD 0)

/-- The `-- status` block of `visualize`: entered when `marker_indices` is
given or `num_markers` differs from `self._count`.  A given
`marker_indices` is validated to rank 1 and written verbatim, redefining
`num_markers`; otherwise a zero `num_markers` raises, and a changed one
writes a default all-zeros prototype-index array of the new length. -/
def stepStatus (mi : Option IdxArray) (s : VisualizationMarkers)
    (n : Nat) : Except VisError (VisualizationMarkers × Nat) :=
  match mi with
  | some a =>
      if a.shape.length ≠ 1 then
        Except.error (VisError.shapeError "marker_indices" "(M,)" a.shape)
      else
        Except.ok
          ({ s with
              instancer := { s.instancer with protoIndices := a.data } },
            a.shape.headD 0)
  | none =>
      if n ≠ s.count then
        if n = 0 then
          Except.error VisError.emptyBatch
        else
          Except.ok
            ({ s with
                instancer :=
                  { s.instancer with
                      protoIndices := List.replicate n 0 } },
              n)
      else
        Except.ok (s, n)

/-- `VisualizationMarkers.visualize`.  Returns the object state after the
call together with the raised error, if any: a Python exception propagates
to the caller but every instancer attribute written before the raising
statement stays written, so the partially updated state is returned
alongside the error.  `self._count = num_markers` is the last statement and
runs only when no exception was raised. -/
def visualize (s : VisualizationMarkers) (t o sc : Option NpArray)
    (mi : Option IdxArray) : VisualizationMarkers × Option VisError :=
  if s.instancer.visible = false then
    (s, none)
  else
    match stepTranslations t s 0 with
    | Except.error e => (s, some e)
    | Except.ok (s1, n1) =>
        match stepOrientations o s1 n1 with
        | Except.error e => (s1, some e)
        | Except.ok (s2, n2) =>
            match stepScales sc s2 n2 with
            | Except.error e => (s2, some e)
            | Except.ok (s3, n3) =>
                match stepStatus mi s3 n3 with
                | Except.error e => (s3, some e)
                | Except.ok (s4, n4) => ({ s4 with count := n4 }, none)

/-- `VisualizationMarkers.is_visible`: reads the visibility attribute of the
instancer prim. -/
def is_visible (s : VisualizationMarkers) : Bool :=
  s.instancer.visible

/-- `VisualizationMarkers.set_visibility`: toggles the visibility attribute
of the instancer prim through the USD API. -/
def set_visibility (s : VisualizationMarkers) (v : Bool) :
    VisualizationMarkers :=
  { s with instancer := { s.instancer with visible := v } }

/-- `VisualizationMarkers.num_prototypes`: `len(self.cfg.markers)`. -/
def num_prototypes (s : VisualizationMarkers) : Nat :=
  s.markers.length

/-- Message of the `ValueError` raised for an empty `cfg.markers` (the
Python message also interpolates the received dict). -/
def msgEmptyMarkers : String :=
  "The `cfg.markers` cannot be empty."

/-- Message of the `ValueError` raised for a plain prim marker whose
`prim_type` is `"Xform"`. -/
def msgXformPrim : String :=
  "Please use `FileMarkerCfg` for `prim_type` of `Xform`."

/-- Message of the `ValueError` raised for a file marker whose `prim_type`
is not `"Xform"` (the Python message also interpolates the received
`prim_type`). -/
def msgFileNotXform : String :=
  "Please use `prim_type` of `Xform` for `FileMarkerCfg`."

/-- `VisualizationMarkers._add_markers_prototypes`, parametrised by the
filesystem-accessor collaborator `fs`.  Modelled from the spec where the
collaborator is concerned: `check_file_path` from
`omni.isaac.orbit.utils.assets` is imported but its source is not included;
per the spec it tells whether a `usd_path` resolves on the host filesystem.
Iterates the config in order; for a plain prim marker a `"Xform"`
`prim_type` raises; for a file marker a missing file raises first, then a
non-`"Xform"` `prim_type` raises.  Each surviving marker's child prim path
`f"{prim_path}/{name}"` is added as a prototype target on the instancer, in
config order. -/
def addMarkersPrototypes (primPath : String) (fs : String → Bool) :
    List (String × MarkerCfg) → Except CfgError (List String)
  | [] => Except.ok []
  | (name, cfg) :: rest =>
      match cfg with
      | MarkerCfg.prim primType =>
          if primType = "Xform" then
            Except.error (CfgError.configurationError msgXformPrim)
          else
            match addMarkersPrototypes primPath fs rest with
            | Except.error e => Except.error e
            | Except.ok tail =>
                Except.ok ((primPath ++ "/" ++ name) :: tail)
      | MarkerCfg.file primType usdPath =>
          if fs usdPath = false then
            Except.error (CfgError.assetNotFound usdPath)
          else if primType ≠ "Xform" then
            Except.error (CfgError.configurationError msgFileNotXform)
          else
            match addMarkersPrototypes primPath fs rest with
            | Except.error e => Except.error e
            | Except.ok tail =>
                Except.ok ((primPath ++ "/" ++ name) :: tail)

/-- `VisualizationMarkers.__init__`, parametrised by the
filesystem-accessor collaborator `fs`.  Creates the instancer prim, rejects
an empty config, adds the marker prototypes, then seeds the instancer with
one instance of prototype 0 at the origin and sets `self._count = 1`.
Path-uniquification (`get_next_free_path`) is host-side; `primPath` stands
for the resolved path. -/
def init (primPath : String) (fs : String → Bool)
    (markers : List (String × MarkerCfg)) :
    Except CfgError VisualizationMarkers :=
  if markers.length = 0 then
    Except.error (CfgError.configurationError msgEmptyMarkers)
  else
    match addMarkersPrototypes primPath fs markers with
    | Except.error e => Except.error e
    | Except.ok protos =>
        Except.ok
          { instancer :=
              { positions := [[0, 0, 0]]
                orientations := []
                scales := []
                protoIndices := [0]
                prototypes := protos
                visible := true }
            count := 1
            markers := markers }

/-- Whether a marker config entry passes all the per-marker checks of
`_add_markers_prototypes` (a spec-side characterisation used to state
amended construction claims). -/
def MarkerCfg.validCfg (fs : String → Bool) : MarkerCfg → Bool
  | MarkerCfg.prim primType => primType ≠ "Xform"
  | MarkerCfg.file primType usdPath => fs usdPath && primType = "Xform"

/-- Spec-side definition, following the spec's words for the "last-set-wins"
count rule: the leading dimension of the last non-null argument in the
fixed precedence order translations, orientations, scales, marker_indices,
or `none` when all four are null. -/
def lastNonNullLeadingDim (t o sc : Option NpArray) (mi : Option IdxArray) :
    Option Nat :=
  match mi with
  | some a => some (a.shape.headD 0)
  | none =>
      match sc with
      | some a => some (a.shape.headD 0)
      | none =>
          match o with
          | some a => some (a.shape.headD 0)
          | none =>
              match t with
              | some a => some (a.shape.headD 0)
              | none => none

/-- The instance count implied by the translations/orientations/scales
arguments alone: the value of `num_markers` when control reaches the
`-- status` block, namely the leading dimension of the last non-null of the
three, or 0 when all three are null. -/
def impliedCount (t o sc : Option NpArray) : Nat :=
  match sc with
  | some a => a.shape.headD 0
  | none =>
      match o with
      | some a => a.shape.headD 0
      | none =>
          match t with
          | some a => a.shape.headD 0
          | none => 0

/-! Concrete states and arrays used by witnesses and counterexamples. -/

/-- A visible instancer holding five instances with some arbitrary
previously written attribute values. -/
def exInstancer5 : Instancer :=
  { positions := [[7, 7, 7]]
    orientations := [[1, 2, 3, 4]]
    scales := [[5, 5, 5]]
    protoIndices := [0, 0, 0, 0, 0]
    prototypes := ["/World/Visuals/m"]
    visible := true }

/-- A `VisualizationMarkers` state with tracked count 5. -/
def exState5 : VisualizationMarkers :=
  { instancer := exInstancer5
    count := 5
    markers := [("m", MarkerCfg.prim "Sphere")] }

/-- The same state after `set_visibility(False)`. -/
def exStateHidden : VisualizationMarkers :=
  set_visibility exState5 false

/-- A valid `(3, 3)` translations array. -/
def arrT33 : NpArray :=
  { shape := [3, 3], rows := [[1, 0, 0], [0, 1, 0], [0, 0, 1]] }

/-- An empty `(0, 3)` translations array (`np.zeros((0, 3))`): it passes the
shape validation with a leading dimension of 0. -/
def arrT03 : NpArray :=
  { shape := [0, 3], rows := [] }

/-- A rank-1 array of shape `(3,)` (`np.zeros(3)`). -/
def arrRank1 : NpArray :=
  { shape := [3], rows := [] }

/-- A malformed `(4, 3)` orientations array (wrong width). -/
def arrOri43 : NpArray :=
  { shape := [4, 3], rows := [[1, 0, 0], [0, 1, 0], [0, 0, 1], [1, 1, 1]] }

/-- A valid `(1, 4)` orientations array holding the identity quaternion in
`(w, x, y, z)` order. -/
def arrOriQ : NpArray :=
  { shape := [1, 4], rows := [[1, 0, 0, 0]] }

/-- An empty rank-1 `marker_indices` array of shape `(0,)`. -/
def idxEmpty : IdxArray :=
  { shape := [0], data := [] }

/-- The `marker_indices` array `[0, 1, 0, 1]`. -/
def idx4 : IdxArray :=
  { shape := [4], data := [0, 1, 0, 1] }

/-! Inversion and evaluation lemmas for the stages of `visualize`. -/

/-- When the translations block succeeds, `num_markers` becomes the leading
dimension of the provided array (or is left alone), and the prototype
indices, orientations and tracked count are untouched. -/
lemma stepTranslations_ok (t : Option NpArray) (s s' : VisualizationMarkers)
    (n n' : Nat) (h : stepTranslations t s n = Except.ok (s', n')) :
    n' = (match t with | none => n | some b => b.shape.headD 0) ∧
    s'.instancer.protoIndices = s.instancer.protoIndices ∧
    s'.instancer.orientations = s.instancer.orientations ∧
    s'.count = s.count := by
  cases t with
  | none =>
      cases h
      exact ⟨rfl, rfl, rfl, rfl⟩
  | some b =>
      simp only [stepTranslations] at h
      cases hc : checkShape2 "translations" "(M, 3)" 3 b.shape <;>
        simp only [hc] at h
      · cases h
        exact ⟨rfl, rfl, rfl, rfl⟩
      · cases h

/-- When the orientations block succeeds, `num_markers` becomes the leading
dimension of the provided array (or is left alone), and the prototype
indices and tracked count are untouched. -/
lemma stepOrientations_ok (o : Option NpArray)
    (s s' : VisualizationMarkers) (n n' : Nat)
    (h : stepOrientations o s n = Except.ok (s', n')) :
    n' = (match o with | none => n | some b => b.shape.headD 0) ∧
    s'.instancer.protoIndices = s.instancer.protoIndices ∧
    s'.count = s.count := by
  cases o with
  | none =>
      cases h
      exact ⟨rfl, rfl, rfl⟩
  | some b =>
      simp only [stepOrientations] at h
      cases hc : checkShape2 "orientations" "(M, 4)" 4 b.shape <;>
        simp only [hc] at h
      · cases h
        exact ⟨rfl, rfl, rfl⟩
      · cases h

/-- When the scales block succeeds, `num_markers` becomes the leading
dimension of the provided array (or is left alone), and the prototype
indices, orientations and tracked count are untouched. -/
lemma stepScales_ok (sc : Option NpArray) (s s' : VisualizationMarkers)
    (n n' : Nat) (h : stepScales sc s n = Except.ok (s', n')) :
    n' = (match sc with | none => n | some b => b.shape.headD 0) ∧
    s'.instancer.protoIndices = s.instancer.protoIndices ∧
    s'.instancer.orientations = s.instancer.orientations ∧
    s'.count = s.count := by
  cases sc with
  | none =>
      cases h
      exact ⟨rfl, rfl, rfl, rfl⟩
  | some b =>
      simp only [stepScales] at h
      cases hc : checkShape2 "scales" "(M, 3)" 3 b.shape <;>
        simp only [hc] at h
      · cases h
        exact ⟨rfl, rfl, rfl, rfl⟩
      · cases h

/-- When the status block succeeds, the final `num_markers` is the leading
dimension of `marker_indices` when that was provided, and the incoming
value otherwise; the orientations attribute is untouched. -/
lemma stepStatus_ok (mi : Option IdxArray) (s s' : VisualizationMarkers)
    (n n' : Nat) (h : stepStatus mi s n = Except.ok (s', n')) :
    n' = (match mi with | none => n | some a => a.shape.headD 0) ∧
    s'.instancer.orientations = s.instancer.orientations := by
  cases mi with
  | none =>
      simp only [stepStatus] at h
      split at h
      · split at h
        · cases h
        · cases h
          exact ⟨rfl, rfl⟩
      · cases h
        exact ⟨rfl, rfl⟩
  | some a =>
      simp only [stepStatus] at h
      split at h
      · cases h
      · cases h
        exact ⟨rfl, rfl⟩

/-- The combined effect of the translations, orientations and scales blocks
on the object state, on inputs that pass their shape validation: positions
and scales are replaced verbatim, orientations are replaced by the
component-reordered rows; the prototype indices and tracked count are
untouched.  (A derived description of the three write stages, proved
equivalent in `visualize_valid` below.) -/
def applyTOS (t o sc : Option NpArray) (s : VisualizationMarkers) :
    VisualizationMarkers :=
  let s1 : VisualizationMarkers :=
    match t with
    | none => s
    | some a => { s with instancer := { s.instancer with positions := a.rows } }
  let s2 : VisualizationMarkers :=
    match o with
    | none => s1
    | some a =>
        { s1 with
            instancer :=
              { s1.instancer with orientations := convertQuatToXYZW a.rows } }
  match sc with
  | none => s2
  | some a => { s2 with instancer := { s2.instancer with scales := a.rows } }

lemma applyTOS_protoIndices (t o sc : Option NpArray)
    (s : VisualizationMarkers) :
    (applyTOS t o sc s).instancer.protoIndices
      = s.instancer.protoIndices := by
  cases t <;> cases o <;> cases sc <;> rfl

lemma applyTOS_count (t o sc : Option NpArray) (s : VisualizationMarkers) :
    (applyTOS t o sc s).count = s.count := by
  cases t <;> cases o <;> cases sc <;> rfl

lemma applyTOS_orientations_some (t sc : Option NpArray) (a : NpArray)
    (s : VisualizationMarkers) :
    (applyTOS t (some a) sc s).instancer.orientations
      = convertQuatToXYZW a.rows := by
  cases t <;> cases sc <;> rfl

/-- On a visible state, when every provided array among translations,
orientations and scales passes its shape validation, `visualize` reduces
to the status block run on the state with the three writes applied and on
the implied count. -/
lemma visualize_valid (s : VisualizationMarkers) (t o sc : Option NpArray)
    (mi : Option IdxArray) (hvis : s.instancer.visible = true)
    (ht : ∀ b, t = some b →
      checkShape2 "translations" "(M, 3)" 3 b.shape = none)
    (ho : ∀ b, o = some b →
      checkShape2 "orientations" "(M, 4)" 4 b.shape = none)
    (hsc : ∀ b, sc = some b →
      checkShape2 "scales" "(M, 3)" 3 b.shape = none) :
    visualize s t o sc mi
      = match stepStatus mi (applyTOS t o sc s) (impliedCount t o sc) with
        | Except.error e => (applyTOS t o sc s, some e)
        | Except.ok (s4, n4) => ({ s4 with count := n4 }, none) := by
  rcases t with _ | a <;> rcases o with _ | b <;> rcases sc with _ | c <;>
    simp_all [visualize, stepTranslations, stepOrientations, stepScales,
      applyTOS, impliedCount]

/-! Claim theorems. -/

/-- Claim C1 counterexample: the last-set-wins rule fails as stated when
the last non-null argument has leading dimension 0 and `marker_indices` is
absent.  On the visible count-5 state, a `(0, 3)` translations array passes
shape validation and is the last non-null argument, so the claim demands a
tracked count of 0; the code instead raises the zero-count `ValueError`
and leaves the tracked count at 5. -/
theorem C1_counterexample :
    is_visible exState5 = true ∧
    checkShape2 "translations" "(M, 3)" 3 arrT03.shape = none ∧
    lastNonNullLeadingDim (some arrT03) none none none = some 0 ∧
    (visualize exState5 (some arrT03) none none none).2
        = some VisError.emptyBatch ∧
    (visualize exState5 (some arrT03) none none none).1.count = 5 ∧
    (5 : Nat) ≠ 0 :=
  ⟨rfl, rfl, rfl, rfl, rfl, by decide⟩

/-- Claim C1 amended: on a visible state, when at least one argument is
non-null and the call completes without raising (which excludes exactly
the case where `marker_indices` is null and the implied count is 0 yet
differs from the prior count), the tracked count after the call equals the
leading dimension of the last non-null argument in the fixed precedence
order translations, orientations, scales, marker_indices. -/
theorem C1_last_set_wins (s : VisualizationMarkers) (t o sc : Option NpArray)
    (mi : Option IdxArray) (hvis : is_visible s = true)
    (hsome : t ≠ none ∨ o ≠ none ∨ sc ≠ none ∨ mi ≠ none)
    (hok : (visualize s t o sc mi).2 = none) :
    some (visualize s t o sc mi).1.count = lastNonNullLeadingDim t o sc mi := by
  simp only [is_visible] at hvis
  unfold visualize at hok ⊢
  rw [if_neg (by simp [hvis])] at hok ⊢
  cases hT : stepTranslations t s 0 with
  | error e => simp [hT] at hok
  | ok p =>
    obtain ⟨s1, n1⟩ := p
    simp only [hT] at hok ⊢
    cases hO : stepOrientations o s1 n1 with
    | error e => simp [hO] at hok
    | ok p =>
      obtain ⟨s2, n2⟩ := p
      simp only [hO] at hok ⊢
      cases hS : stepScales sc s2 n2 with
      | error e => simp [hS] at hok
      | ok p =>
        obtain ⟨s3, n3⟩ := p
        simp only [hS] at hok ⊢
        cases hSt : stepStatus mi s3 n3 with
        | error e => simp [hSt] at hok
        | ok p =>
          obtain ⟨s4, n4⟩ := p
          simp only [hSt]
          have h1 := (stepTranslations_ok t s s1 0 n1 hT).1
          have h2 := (stepOrientations_ok o s1 s2 n1 n2 hO).1
          have h3 := (stepScales_ok sc s2 s3 n2 n3 hS).1
          have h4 := stepStatus_ok mi s3 s4 n3 n4 hSt
          rcases mi with _ | a <;> rcases sc with _ | c <;>
            rcases o with _ | b <;> rcases t with _ | d <;>
            simp_all [lastNonNullLeadingDim]

/-- Witness for the amended C1 at a concrete input: a `(3, 3)` translations
array as the only argument gives a tracked count of 3. -/
theorem C1_last_set_wins_witness :
    some (visualize exState5 (some arrT33) none none none).1.count
      = lastNonNullLeadingDim (some arrT33) none none none :=
  C1_last_set_wins exState5 (some arrT33) none none none rfl
    (Or.inl (Option.some_ne_none arrT33)) rfl

/-- Claim C3 (code bug): the docstring promises
`ValueError: When input arrays do not follow the expected shapes`, and the
claim accordingly says a rank-1 `translations` array fails with a
`ShapeError` naming the argument.  The code evaluates
`translations.shape[1]` before checking the rank, so a rank-1 array raises
`IndexError: tuple index out of range` instead (first conjunct), while a
rank-2 width violation such as orientations of shape `(4, 3)` does raise
the documented `ValueError` carrying the argument name, the expected-shape
text and the received shape (second conjunct). -/
theorem C3_rank1_translations_indexerror :
    visualize exState5 (some arrRank1) none none none
        = (exState5, some VisError.indexError) ∧
    visualize exState5 none (some arrOri43) none none
        = (exState5,
            some (VisError.shapeError "orientations" "(M, 4)" [4, 3])) :=
  ⟨rfl, rfl⟩

/-- Claim C2: the prototype-index reconciliation of `visualize` on a
visible state, when the provided translations/orientations/scales arrays
pass their shape validation.  (1) A provided rank-1 `marker_indices`
array (with its numpy shape consistent with its data) is written verbatim
and its length becomes the new tracked count, without error.  (2) With
`marker_indices` absent and the implied count differing from the prior
count, an implied count of 0 fails with the zero-count `ValueError`;
(3) a nonzero one writes an all-zeros prototype-index array of the new
length and makes it the new count, without error.  (4) With
`marker_indices` absent and the implied count equal to the prior count,
the prototype-index array is not rewritten and no error is raised. -/
theorem C2_index_reconciliation (s : VisualizationMarkers)
    (t o sc : Option NpArray) (mi : Option IdxArray)
    (hvis : is_visible s = true)
    (ht : ∀ b, t = some b →
      checkShape2 "translations" "(M, 3)" 3 b.shape = none)
    (ho : ∀ b, o = some b →
      checkShape2 "orientations" "(M, 4)" 4 b.shape = none)
    (hsc : ∀ b, sc = some b →
      checkShape2 "scales" "(M, 3)" 3 b.shape = none) :
    (∀ a, mi = some a → a.shape = [a.data.length] →
        (visualize s t o sc mi).1.instancer.protoIndices = a.data ∧
        (visualize s t o sc mi).1.count = a.data.length ∧
        (visualize s t o sc mi).2 = none) ∧
    (mi = none → impliedCount t o sc ≠ s.count →
      impliedCount t o sc = 0 →
        (visualize s t o sc mi).2 = some VisError.emptyBatch ∧
        (visualize s t o sc mi).1.count = s.count) ∧
    (mi = none → impliedCount t o sc ≠ s.count →
      impliedCount t o sc ≠ 0 →
        (visualize s t o sc mi).1.instancer.protoIndices
            = List.replicate (impliedCount t o sc) 0 ∧
        (visualize s t o sc mi).1.count = impliedCount t o sc ∧
        (visualize s t o sc mi).2 = none) ∧
    (mi = none → impliedCount t o sc = s.count →
        (visualize s t o sc mi).1.instancer.protoIndices
            = s.instancer.protoIndices ∧
        (visualize s t o sc mi).1.count = impliedCount t o sc ∧
        (visualize s t o sc mi).2 = none) := by
  simp only [is_visible] at hvis
  have hv := visualize_valid s t o sc mi hvis ht ho hsc
  have hp := applyTOS_protoIndices t o sc s
  have hcnt := applyTOS_count t o sc s
  refine ⟨?_, ?_, ?_, ?_⟩
  · rintro a rfl hwf
    rw [hv]
    simp [stepStatus, hwf, hp]
  · rintro rfl hne h0
    rw [h0] at hne hv
    rw [hv]
    simp [stepStatus, hcnt, hne]
  · rintro rfl hne h0
    rw [hv]
    simp [stepStatus, hcnt, hne, h0, hp]
  · rintro rfl heq
    rw [hv]
    simp [stepStatus, hcnt, heq, hp]

/-- Witness for C2 at a concrete input: `marker_indices = [0, 1, 0, 1]` on
the count-5 state is written verbatim and sets the count to 4. -/
theorem C2_index_reconciliation_witness :
    (visualize exState5 none none none (some idx4)).1.instancer.protoIndices
        = [0, 1, 0, 1] ∧
    (visualize exState5 none none none (some idx4)).1.count = 4 ∧
    (visualize exState5 none none none (some idx4)).2 = none := by
  have h := (C2_index_reconciliation exState5 none none none (some idx4)
      rfl (fun _ hb => nomatch hb) (fun _ hb => nomatch hb)
      (fun _ hb => nomatch hb)).1 idx4 rfl rfl
  exact ⟨h.1, h.2.1, h.2.2⟩

/-- Claim C5: a valid `(M, 4)` orientations array passed to `visualize` on
a visible state (with any valid translations argument alongside) is
written to the instancer as the pure component-wise reordering of each row
from `(w, x, y, z)` to `(x, y, z, w)` — no rotation and no
renormalization — and the written value survives the rest of the call even
if a later stage fails. -/
theorem C5_orientation_reorder (s : VisualizationMarkers)
    (t : Option NpArray) (a : NpArray) (sc : Option NpArray)
    (mi : Option IdxArray) (M : Nat) (hvis : is_visible s = true)
    (ht : ∀ b, t = some b →
      checkShape2 "translations" "(M, 3)" 3 b.shape = none)
    (hsc : ∀ b, sc = some b →
      checkShape2 "scales" "(M, 3)" 3 b.shape = none)
    (hshape : a.shape = [M, 4]) :
    (visualize s t (some a) sc mi).1.instancer.orientations
      = a.rows.map (fun r => r.drop 1 ++ r.take 1) := by
  simp only [is_visible] at hvis
  have ho : ∀ b, (some a : Option NpArray) = some b →
      checkShape2 "orientations" "(M, 4)" 4 b.shape = none := by
    intro b hb
    cases hb
    rw [hshape]
    rfl
  have hv := visualize_valid s t (some a) sc mi hvis ht ho hsc
  rw [hv]
  cases hSt : stepStatus mi (applyTOS t (some a) sc s)
      (impliedCount t (some a) sc) with
  | error e =>
      simp [applyTOS_orientations_some, convertQuatToXYZW]
  | ok p =>
      obtain ⟨s4, n4⟩ := p
      have h4 := (stepStatus_ok mi _ s4 _ n4 hSt).2
      simp [h4, applyTOS_orientations_some, convertQuatToXYZW]

/-- Witness for C5 at a concrete input: the identity quaternion
`(w, x, y, z) = (1, 0, 0, 0)` is written to the host as
`(x, y, z, w) = (0, 0, 0, 1)`. -/
theorem C5_orientation_reorder_witness :
    (visualize exState5 none (some arrOriQ) none
        none).1.instancer.orientations = [[0, 0, 0, 1]] :=
  Eq.trans
    (C5_orientation_reorder exState5 none arrOriQ none none 1 rfl
      (fun _ hb => nomatch hb) (fun _ hb => nomatch hb) rfl)
    rfl

/-- Claim C4: a `visualize` call on an invisible instancer returns
immediately: no error is raised and the state — the tracked count and all
four instancer arrays — is returned unchanged, for every combination of
arguments including malformed ones. -/
theorem C4_invisible_noop (s : VisualizationMarkers)
    (t o sc : Option NpArray) (mi : Option IdxArray)
    (h : is_visible s = false) :
    visualize s t o sc mi = (s, none) := by
  simp only [is_visible] at h
  simp [visualize, h]

/-- Witness for C4 at a concrete hidden state with malformed arrays. -/
theorem C4_invisible_noop_witness :
    visualize exStateHidden (some arrRank1) (some arrOri43) none
        (some idx4) = (exStateHidden, none) :=
  C4_invisible_noop exStateHidden (some arrRank1) (some arrOri43) none
    (some idx4) rfl

/-- A reachable state with tracked count 0: the result of calling
`visualize` with an empty `marker_indices` array on the count-5 state. -/
def exStateCount0 : VisualizationMarkers :=
  (visualize exState5 none none none (some idxEmpty)).1

/-- Claim C6 counterexample: a `visualize` call with all four arguments
null does not always fail.  From the visible count-5 state, one call with
an empty `marker_indices` array succeeds and leaves the tracked count at 0
(so the count-0 state is reachable); on that state the all-null call
returns silently with no error and no state change, where the claim
demands a `NoInputError`/`EmptyBatchError`. -/
theorem C6_counterexample :
    (visualize exState5 none none none (some idxEmpty)).2 = none ∧
    is_visible exStateCount0 = true ∧
    exStateCount0.count = 0 ∧
    visualize exStateCount0 none none none none = (exStateCount0, none) :=
  ⟨rfl, rfl, rfl, rfl⟩

/-- Claim C6 amended: on a visible state, a `visualize` call with all four
arguments null fails with the zero-count `ValueError` and leaves the state
(including the tracked count) unchanged, provided the previously recorded
count is nonzero; when the recorded count is 0 the call instead returns
silently with no error and no state change. -/
theorem C6_all_null (s : VisualizationMarkers)
    (hvis : is_visible s = true) :
    (s.count ≠ 0 →
        visualize s none none none none = (s, some VisError.emptyBatch)) ∧
    (s.count = 0 → visualize s none none none none = (s, none)) := by
  obtain ⟨inst, c, mk⟩ := s
  simp only [is_visible] at hvis
  constructor
  · intro hc
    have hc2 : (0 : Nat) ≠ c := Ne.symm hc
    simp [visualize, stepTranslations, stepOrientations, stepScales,
      stepStatus, hvis, hc2]
  · intro hc
    subst hc
    simp [visualize, stepTranslations, stepOrientations, stepScales,
      stepStatus, hvis]

/-- Witness for the amended C6 at the concrete count-5 state. -/
theorem C6_all_null_witness :
    visualize exState5 none none none none
      = (exState5, some VisError.emptyBatch) :=
  (C6_all_null exState5 rfl).1 (by decide)

/-- Claim C9: `visualize` is not atomic across the four sub-updates.  With
a valid `(3, 3)` translations array and a malformed `(4, 3)` orientations
array, the call fails with the orientations `ShapeError` after the
translations were already written: the positions attribute holds the new
rows while orientations, scales, prototype indices and the tracked count
keep their prior values. -/
theorem C9_nonatomic_update :
    (visualize exState5 (some arrT33) (some arrOri43) none none).2
        = some (VisError.shapeError "orientations" "(M, 4)" [4, 3]) ∧
    (visualize exState5 (some arrT33) (some arrOri43) none
        none).1.instancer.positions = arrT33.rows ∧
    (visualize exState5 (some arrT33) (some arrOri43) none
        none).1.instancer.orientations = exState5.instancer.orientations ∧
    (visualize exState5 (some arrT33) (some arrOri43) none
        none).1.instancer.scales = exState5.instancer.scales ∧
    (visualize exState5 (some arrT33) (some arrOri43) none
        none).1.instancer.protoIndices
        = exState5.instancer.protoIndices ∧
    (visualize exState5 (some arrT33) (some arrOri43) none none).1.count
        = 5 :=
  ⟨rfl, rfl, rfl, rfl, rfl, rfl⟩

/-- `_add_markers_prototypes` on a config whose entries all pass the
per-marker checks: every entry is accepted, yielding the child prim paths
in config order. -/
lemma addMarkersPrototypes_valid (primPath : String) (fs : String → Bool)
    (markers : List (String × MarkerCfg))
    (h : ∀ p ∈ markers, MarkerCfg.validCfg fs p.2 = true) :
    addMarkersPrototypes primPath fs markers
      = Except.ok (markers.map (fun p => primPath ++ "/" ++ p.1)) := by
  induction markers with
  | nil => rfl
  | cons hd tl ih =>
      obtain ⟨name, cfg⟩ := hd
      have hhd := h _ (List.mem_cons_self _ _)
      have htl : ∀ p ∈ tl, MarkerCfg.validCfg fs p.2 = true :=
        fun p hp => h p (List.mem_cons_of_mem _ hp)
      cases cfg with
      | prim pt =>
          simp only [MarkerCfg.validCfg, decide_eq_true_eq] at hhd
          simp [addMarkersPrototypes, hhd, ih htl]
      | file pt path =>
          simp only [MarkerCfg.validCfg, Bool.and_eq_true,
            decide_eq_true_eq] at hhd
          simp [addMarkersPrototypes, hhd.1, hhd.2, ih htl]

/-- `_add_markers_prototypes` iterates in config order, so a prefix of
entries that all pass the per-marker checks merely contributes its prim
paths: the result on `pre ++ rest` is the result on `rest` with the paths
of `pre` prepended, and in particular any error raised inside `rest` is
the error of the whole call. -/
lemma addMarkersPrototypes_append_valid (primPath : String)
    (fs : String → Bool) (pre rest : List (String × MarkerCfg))
    (h : ∀ p ∈ pre, MarkerCfg.validCfg fs p.2 = true) :
    addMarkersPrototypes primPath fs (pre ++ rest)
      = (addMarkersPrototypes primPath fs rest).map
          (fun l => pre.map (fun p => primPath ++ "/" ++ p.1) ++ l) := by
  induction pre with
  | nil =>
      cases hr : addMarkersPrototypes primPath fs rest <;>
        simp [Except.map, hr]
  | cons hd tl ih =>
      obtain ⟨name, cfg⟩ := hd
      have hhd := h _ (List.mem_cons_self _ _)
      have htl : ∀ p ∈ tl, MarkerCfg.validCfg fs p.2 = true :=
        fun p hp => h p (List.mem_cons_of_mem _ hp)
      have ih2 := ih htl
      cases cfg with
      | prim pt =>
          simp only [MarkerCfg.validCfg, decide_eq_true_eq] at hhd
          cases hr : addMarkersPrototypes primPath fs rest <;>
            simp_all [addMarkersPrototypes, Except.map]
      | file pt path =>
          simp only [MarkerCfg.validCfg, Bool.and_eq_true,
            decide_eq_true_eq] at hhd
          cases hr : addMarkersPrototypes primPath fs rest <;>
            simp_all [addMarkersPrototypes, Except.map]

/-- Claim C7 counterexample: construction does not succeed for every
non-empty config.  The one-entry config whose plain prim marker declares
`prim_type = "Xform"` is non-empty, yet construction fails with the
pairing `ValueError`. -/
theorem C7_counterexample :
    ([("m", MarkerCfg.prim "Xform")] : List (String × MarkerCfg)).length
        ≠ 0 ∧
    init "/World/Visuals" (fun _ => true) [("m", MarkerCfg.prim "Xform")]
      = Except.error (CfgError.configurationError msgXformPrim) :=
  ⟨by decide, rfl⟩

/-- Claim C7 amended: construction with an empty config fails with the
empty-config `ValueError`; construction with a non-empty config whose
entries all pass the per-marker checks (plain prim markers with a
non-`"Xform"` prim type; file markers with an existing file and an
`"Xform"` prim type) succeeds, with `num_prototypes` equal to the number
of entries and the prototype target at index `i` being the child prim path
of entry `i` in config iteration order. -/
theorem C7_construction (primPath : String) (fs : String → Bool)
    (markers : List (String × MarkerCfg)) :
    (markers = [] →
        init primPath fs markers
          = Except.error (CfgError.configurationError msgEmptyMarkers)) ∧
    (markers ≠ [] →
      (∀ p ∈ markers, MarkerCfg.validCfg fs p.2 = true) →
        ∃ st, init primPath fs markers = Except.ok st ∧
          num_prototypes st = markers.length ∧
          st.count = 1 ∧
          ∀ i : Nat, st.instancer.prototypes[i]?
              = Option.map
                  (fun p : String × MarkerCfg => primPath ++ "/" ++ p.1)
                  markers[i]?) := by
  refine ⟨?_, ?_⟩
  · rintro rfl
    rfl
  · intro hne hvalid
    have hlen : markers.length ≠ 0 := by
      simpa [List.length_eq_zero] using hne
    have hinit : init primPath fs markers
        = Except.ok
            { instancer :=
                { positions := [[0, 0, 0]]
                  orientations := []
                  scales := []
                  protoIndices := [0]
                  prototypes :=
                    markers.map (fun p => primPath ++ "/" ++ p.1)
                  visible := true }
              count := 1
              markers := markers } := by
      simp [init, hlen,
        addMarkersPrototypes_valid primPath fs markers hvalid]
    exact ⟨_, hinit, rfl, rfl, fun i => by simp [List.getElem?_map]⟩

/-- Witness for the amended C7 at a concrete two-entry config. -/
theorem C7_construction_witness :
    ∃ st, init "/W" (fun _ => true)
        [("a", MarkerCfg.prim "Sphere"),
          ("b", MarkerCfg.file "Xform" "/x.usd")] = Except.ok st ∧
      num_prototypes st = 2 ∧
      st.count = 1 ∧
      st.instancer.prototypes[0]? = some "/W/a" ∧
      st.instancer.prototypes[1]? = some "/W/b" := by
  obtain ⟨st, h1, h2, h3, h4⟩ :=
    (C7_construction "/W" (fun _ => true)
        [("a", MarkerCfg.prim "Sphere"),
          ("b", MarkerCfg.file "Xform" "/x.usd")]).2
      (List.cons_ne_nil _ _) (by decide)
  exact ⟨st, h1, h2, h3, Eq.trans (h4 0) (by decide),
    Eq.trans (h4 1) (by decide)⟩

/-- Claim C8 counterexample: the error precedence is not as claimed.  For
a file prototype the existence check runs before the prim-type check, so a
file marker with both a non-`"Xform"` prim type and a missing file fails
with the `FileNotFoundError`, where the claim ("fails with
`ConfigurationError` whenever any file prototype declares a shape kind
other than the generic container type") demands a `ConfigurationError`. -/
theorem C8_counterexample :
    init "/W" (fun _ => false)
        [("m", MarkerCfg.file "Sphere" "/missing.usd")]
      = Except.error (CfgError.assetNotFound "/missing.usd") ∧
    ("Sphere" : String) ≠ "Xform" :=
  ⟨rfl, by decide⟩

/-- Claim C8 amended: construction fails with the error of the first
invalid prototype in config order: a plain prim marker declaring
`"Xform"` fails with the pairing `ValueError`; a file marker whose file
does not resolve fails with `FileNotFoundError`; a file marker whose file
resolves but whose prim type is not `"Xform"` fails with the pairing
`ValueError` — for a file marker the existence check precedes the
prim-type check. -/
theorem C8_first_invalid (primPath : String) (fs : String → Bool)
    (pre : List (String × MarkerCfg)) (name : String) (cfg : MarkerCfg)
    (post : List (String × MarkerCfg))
    (hpre : ∀ p ∈ pre, MarkerCfg.validCfg fs p.2 = true) :
    (∀ pt, cfg = MarkerCfg.prim pt → pt = "Xform" →
        init primPath fs (pre ++ (name, cfg) :: post)
          = Except.error (CfgError.configurationError msgXformPrim)) ∧
    (∀ pt path, cfg = MarkerCfg.file pt path → fs path = false →
        init primPath fs (pre ++ (name, cfg) :: post)
          = Except.error (CfgError.assetNotFound path)) ∧
    (∀ pt path, cfg = MarkerCfg.file pt path → fs path = true →
      pt ≠ "Xform" →
        init primPath fs (pre ++ (name, cfg) :: post)
          = Except.error (CfgError.configurationError msgFileNotXform)) := by
  have hlen : (pre ++ (name, cfg) :: post).length ≠ 0 := by simp
  refine ⟨?_, ?_, ?_⟩
  · rintro pt rfl rfl
    simp [init, hlen,
      addMarkersPrototypes_append_valid primPath fs pre _ hpre,
      addMarkersPrototypes, Except.map]
  · rintro pt path rfl hfs
    simp [init, hlen,
      addMarkersPrototypes_append_valid primPath fs pre _ hpre,
      addMarkersPrototypes, Except.map, hfs]
  · rintro pt path rfl hfs hpt
    simp [init, hlen,
      addMarkersPrototypes_append_valid primPath fs pre _ hpre,
      addMarkersPrototypes, Except.map, hfs, hpt]

/-- Witness for the amended C8: a valid first entry followed by a plain
prim marker declaring `"Xform"` fails with the pairing `ValueError`. -/
theorem C8_first_invalid_witness :
    init "/W" (fun _ => true)
        [("ok", MarkerCfg.prim "Cube"), ("bad", MarkerCfg.prim "Xform")]
      = Except.error (CfgError.configurationError msgXformPrim) :=
  (C8_first_invalid "/W" (fun _ => true) [("ok", MarkerCfg.prim "Cube")]
      "bad" (MarkerCfg.prim "Xform") [] (by decide)).1 "Xform" rfl rfl

/-- Claim C10: on a visible state, `visualize` with an empty rank-1
`marker_indices` array of shape `(0,)` and no other arguments succeeds:
the empty prototype-index array is written verbatim and the tracked count
becomes 0.  The zero-count rejection lives only in the branch where
`marker_indices` is absent. -/
theorem C10_empty_marker_indices (s : VisualizationMarkers)
    (h : is_visible s = true) :
    visualize s none none none (some idxEmpty)
      = ({ s with
            instancer := { s.instancer with protoIndices := [] }
            count := 0 }, none) := by
  simp only [is_visible] at h
  simp [visualize, h, stepTranslations, stepOrientations, stepScales,
    stepStatus, idxEmpty]

/-- Witness for C10 at the concrete count-5 state. -/
theorem C10_empty_marker_indices_witness :
    visualize exState5 none none none (some idxEmpty)
      = ({ exState5 with
            instancer := { exState5.instancer with protoIndices := [] }
            count := 0 }, none) :=
  C10_empty_marker_indices exState5 rfl

end OrbitMarkers
